import Mathlib

/-!
Verification development for the HLE kernel core and service glue of the
Panda3DS repository excerpt (src/core/kernel/kernel.cpp, src/core/services/fs.cpp,
src/core/services/nfc.cpp, src/core/services/ldr_ro.cpp, include/services/ptm.hpp).

Machine integers are modelled as `Nat` with explicit reduction modulo `2 ^ 32`
where the C++ code computes in `u32`. Guest memory and the guest register file
are modelled word-granularly as functions from addresses / register indices to
32-bit values. Host-fatal conditions (`Helpers::panic`) are modelled as the
`Except.error` branch (or a dedicated `fatal` constructor), carrying the panic
format string; guest-visible results are values written into registers or the
IPC response buffer.

Definitions translated from functions that are present in the sources carry no
special marker; the few operations whose bodies live elsewhere in the repository
(object-store primitives, `makeThread`, `setupIdleThread`, `makePort`,
`makeEvent`, the IPC header helper and a few numeric constants) are modelled
from the specification and say so in their doc comments.
-/

/-- Reduction modulus for 32-bit unsigned arithmetic. -/
def u32Mod : Nat := 2 ^ 32

/-- Guest memory, modelled word-granularly: the value most recently stored by a
32-bit write at a given byte address. -/
def Mem : Type := Nat → Nat

/-- Reads a 32-bit word from guest memory (`Memory::read32`): always a value
below `2 ^ 32`. -/
def read32 (m : Mem) (a : Nat) : Nat := m a % u32Mod

/-- Writes a 32-bit word to guest memory (`Memory::write32`). -/
def write32 (m : Mem) (a v : Nat) : Mem := fun x => if x = a then v % u32Mod else m x

/-- The guest register file, register index to 32-bit value. -/
def Regs : Type := Nat → Nat

/-- Writes a register of the guest register file. -/
def updReg (r : Regs) (i v : Nat) : Regs := fun x => if x = i then v % u32Mod else r x

namespace KernelHandles

/-- Sentinel handle for the current process. The value 0xFFFF8001 is given in
the comment above `Kernel::getProcessFromPID` in kernel.cpp. -/
def CurrentProcess : Nat := 0xFFFF8001

/-- Modelled from the spec: the current-thread sentinel, one of the two sentinel
values that never appear in the store. Its numeric value is not in the sources;
the claims only compare handles against it for equality. -/
def CurrentThread : Nat := 0xFFFF9001

end KernelHandles

namespace Result

/-- Guest-visible success result code: 0 denotes success. -/
def Success : Nat := 0

/-- Modelled from the spec: the distinct nonzero InvalidHandle result code
(`Result::Kernel::InvalidHandle`, defined in a header that is not in src/). -/
def InvalidHandle : Nat := 0xD8E007F7

end Result

namespace FSResult

/-- FS service result code `Result::Success` from fs.cpp. -/
def Success : Nat := 0

/-- FS service result code `Result::FileNotFound` from fs.cpp. -/
def FileNotFound : Nat := 0xC8804464

/-- FS service result code `Result::Failure` from fs.cpp. -/
def Failure : Nat := 0xFFFFFFFF

end FSResult

/-- Object type tags of the kernel object store, as enumerated by the switch in
`Kernel::deleteObjectData` and the spec's object-type-tag table. -/
inductive KernelObjectType
  | AddressArbiter
  | Archive
  | Directory
  | File
  | Event
  | Dummy
  | MemoryBlock
  | Port
  | Process
  | ResourceLimit
  | Session
  | Mutex
  | Semaphore
  | Thread
deriving DecidableEq, Repr

/-- Event reset policy tags from the spec's Event description. -/
inductive ResetType
  | OneShot
  | Sticky
  | Pulse
deriving DecidableEq, Repr

/-- Thread status state machine from the spec (section 3). -/
inductive ThreadStatus
  | Running
  | Ready
  | Waiting
  | Dead
deriving DecidableEq, Repr

/-- Owned or referenced payload of a kernel object. Heap-owned payload contents
that no claim inspects (file, directory and archive sessions) are elided to
bare constructors; the payloads the claims do inspect carry their fields:
a Process payload carries the process id, a ResourceLimit payload is the
non-owning interior reference into its parent Process, a Thread payload is the
reference into the fixed thread-pool slot, an Event payload carries its reset
type, and a Port payload carries its service name. -/
inductive ObjectData
  | processData (id : Nat)
  | resourceLimitRef (processHandle : Nat)
  | eventData (resetType : ResetType)
  | threadRef (index : Nat)
  | portData (name : String)
  | fileSession
  | directorySession
  | archiveSession
deriving DecidableEq, Repr

/-- A kernel object: handle, type tag and optional payload (`data == nullptr`
is `none`). -/
structure KernelObject where
  handle : Nat
  type : KernelObjectType
  data : Option ObjectData := none
deriving DecidableEq, Repr

/-- A thread-pool slot, with the fields initialized by the `Kernel::Kernel`
constructor and reset by `Kernel::reset`. -/
structure Thread where
  index : Nat := 0
  tlsBase : Nat := 0
  status : ThreadStatus := ThreadStatus.Dead
  priority : Nat := 0
  waitList : List Nat := []
  waitAll : Bool := false
  outPointer : Nat := 0
  threadsWaitingForTermination : Nat := 0
deriving DecidableEq, Repr

/-- The kernel state: the object store, the port-handle and thread-index
registries, the fixed thread pool and the bookkeeping fields that
`Kernel::Kernel` and `Kernel::reset` initialize. -/
structure KernelState where
  handleCounter : Nat
  objects : List KernelObject
  portHandles : List Nat
  threadIndices : List Nat
  threads : List Thread
  currentProcess : Nat
  currentThreadIndex : Nat
  mainThread : Nat
  srvHandle : Nat
  errorPortHandle : Nat
  threadCount : Nat
  arbiterCount : Nat
  aliveThreadCount : Nat
deriving DecidableEq, Repr

/-- Modelled from the spec: `makeObject(type)` of the object store (its body is
not under src/, only its callers are). It allocates the next handle value from
the monotonically increasing, never recycled counter together with an empty
object slot; since handles are dense the counter always equals the table size,
which is what lets `Kernel::makeProcess` and `Kernel::duplicateHandle` in
kernel.cpp index the table directly with a fresh handle. -/
def Kernel.makeObject (objects : List KernelObject) (t : KernelObjectType) :
    Nat × List KernelObject :=
  (objects.length, objects ++ [{ handle := objects.length, type := t }])

/-- Modelled from the spec: `getObject(handle, expectedType)` of the object
store (its body is not under src/). Returns the object if the handle exists and
its tag matches the expected type; otherwise nothing. -/
def Kernel.getObject (objects : List KernelObject) (handle : Nat)
    (t : KernelObjectType) : Option KernelObject :=
  match objects.find? (fun o => o.handle == handle) with
  | some o => if o.type = t then some o else none
  | none => none

/-- Attaches a payload to the object with the given handle, modelling the
`objects[handle].data = ...` assignments performed by the callers in src/. -/
def setObjectData (objects : List KernelObject) (h : Nat) (d : Option ObjectData) :
    List KernelObject :=
  objects.map (fun o => if o.handle == h then { o with data := d } else o)

/-- Outcome of `Kernel::deleteObjectData` on one object: the heap payload was
freed, nothing was done, or the emulator panicked. -/
inductive DeleteAction
  | freedHeap
  | noop
  | fatal (msg : String)
deriving DecidableEq, Repr

/-- Translation of `Kernel::deleteObjectData` from kernel.cpp: a null payload
returns early; otherwise the switch deletes the heap payload for the heap-owned
types, does nothing for Thread and Dummy, and panics for ResourceLimit. -/
def Kernel.deleteObjectData (o : KernelObject) : DeleteAction :=
  match o.data with
  | none => DeleteAction.noop
  | some _ =>
    match o.type with
    | KernelObjectType.AddressArbiter => DeleteAction.freedHeap
    | KernelObjectType.Archive => DeleteAction.freedHeap
    | KernelObjectType.Directory => DeleteAction.freedHeap
    | KernelObjectType.Event => DeleteAction.freedHeap
    | KernelObjectType.File => DeleteAction.freedHeap
    | KernelObjectType.MemoryBlock => DeleteAction.freedHeap
    | KernelObjectType.Port => DeleteAction.freedHeap
    | KernelObjectType.Process => DeleteAction.freedHeap
    | KernelObjectType.ResourceLimit => DeleteAction.fatal "not known to allocate heap data"
    | KernelObjectType.Session => DeleteAction.freedHeap
    | KernelObjectType.Mutex => DeleteAction.freedHeap
    | KernelObjectType.Semaphore => DeleteAction.freedHeap
    | KernelObjectType.Thread => DeleteAction.noop
    | KernelObjectType.Dummy => DeleteAction.noop

/-- The bulk-cleanup loop of `Kernel::reset` over the object table: the first
panicking `deleteObjectData` aborts emulation. -/
def Kernel.cleanupObjects : List KernelObject → Except String Unit
  | [] => Except.ok ()
  | o :: rest =>
    match Kernel.deleteObjectData o with
    | DeleteAction.fatal msg => Except.error msg
    | _ => Kernel.cleanupObjects rest

/-- Translation of `Kernel::makeProcess` from kernel.cpp: creates a Process
object and a paired ResourceLimit object, attaches a fresh Process payload with
the given id, and links the ResourceLimit object's data pointer to the `limits`
member inside that Process payload (a non-owning interior reference, modelled
as `resourceLimitRef` naming the parent's handle). The handle the Process
stores back into its quota record is not inspected by any claim and is elided. -/
def Kernel.makeProcess (s : KernelState) (id : Nat) : Nat × KernelState :=
  let r1 := Kernel.makeObject s.objects KernelObjectType.Process
  let processHandle := r1.1
  let r2 := Kernel.makeObject r1.2 KernelObjectType.ResourceLimit
  let resourceLimitHandle := r2.1
  let objs3 := setObjectData r2.2 processHandle (some (ObjectData.processData id))
  let objs4 := setObjectData objs3 resourceLimitHandle
    (some (ObjectData.resourceLimitRef processHandle))
  (processHandle, { s with objects := objs4, handleCounter := objs4.length })

/-- Translation of the thread-pool initialization loop in the `Kernel::Kernel`
constructor: every slot `i` gets index `i`, TLS base
`VirtualAddrs::TLSBase + i * VirtualAddrs::TLSSize` (32-bit arithmetic), status
Dead, an empty wait list, and zeroed `outPointer` / `waitAll`. The numeric
values of `VirtualAddrs::TLSBase` and `VirtualAddrs::TLSSize` are in a header
that is not under src/, so they are parameters here. -/
def Kernel.initThreads (numThreads tlsBase0 tlsSize : Nat) : List Thread :=
  (List.range numThreads).map (fun i =>
    { index := i
      tlsBase := (tlsBase0 + i * tlsSize) % u32Mod
      status := ThreadStatus.Dead
      priority := 0
      waitList := []
      waitAll := false
      outPointer := 0
      threadsWaitingForTermination := 0 })

/-- The kernel state set up by the `Kernel::Kernel` constructor: handle counter
zero, empty registries, and the thread pool initialized slot by slot. Fields
the constructor leaves uninitialized are zero here. -/
def Kernel.initialState (numThreads tlsBase0 tlsSize : Nat) : KernelState :=
  { handleCounter := 0
    objects := []
    portHandles := []
    threadIndices := []
    threads := Kernel.initThreads numThreads tlsBase0 tlsSize
    currentProcess := 0
    currentThreadIndex := 0
    mainThread := 0
    srvHandle := 0
    errorPortHandle := 0
    threadCount := 0
    arbiterCount := 0
    aliveThreadCount := 0 }

/-- Translation of `Kernel::getTLSPointer` from kernel.cpp:
`VirtualAddrs::TLSBase + currentThreadIndex * VirtualAddrs::TLSSize` in 32-bit
arithmetic, with the two constants as parameters as in `Kernel.initThreads`. -/
def Kernel.getTLSPointer (tlsBase0 tlsSize currentThreadIndex : Nat) : Nat :=
  (tlsBase0 + currentThreadIndex * tlsSize) % u32Mod

/-- Modelled from the spec: `makeThread` as called by `Kernel::reset` (its body
is not under src/). Per the spec's `createThread`, it allocates the next free
(Dead) pool slot, sets its status and priority, registers the slot index, and
returns a fresh Thread handle whose payload is the reference into the fixed
pool slot (never heap-allocated). The guest register context (entry point,
stack pointer, argument, processor id) lives in the CPU collaborator and is
not modelled. -/
def Kernel.makeThread (s : KernelState) (priority : Nat) (status : ThreadStatus) :
    Nat × KernelState :=
  let i := s.threadCount
  let r := Kernel.makeObject s.objects KernelObjectType.Thread
  let objs := setObjectData r.2 r.1 (some (ObjectData.threadRef i))
  let threads := s.threads.map (fun t =>
    if t.index == i then { t with status := status, priority := priority } else t)
  (r.1,
    { s with
      objects := objs
      handleCounter := objs.length
      threads := threads
      threadCount := i + 1
      aliveThreadCount := s.aliveThreadCount + 1
      threadIndices := s.threadIndices ++ [i] })

/-- Modelled from the spec: the lowest possible thread priority (numerically
largest, since lower numbers mean higher priority), used by the idle thread. -/
def idleThreadPriority : Nat := 0x3F

/-- Modelled from the spec: `setupIdleThread` as called by `Kernel::reset` (its
body is not under src/). A dedicated idle thread with the lowest possible
priority is always present and is selected when no other thread is Ready; it is
modelled at the dedicated last pool slot, made Ready. -/
def Kernel.setupIdleThread (s : KernelState) : KernelState :=
  let i := s.threads.length - 1
  { s with
    threads := s.threads.map (fun t =>
      if t.index == i then
        { t with status := ThreadStatus.Ready, priority := idleThreadPriority }
      else t) }

/-- Modelled from the spec: `makePort(name)` as called by `Kernel::reset` (its
body is not under src/). A Port is a service name string; the fresh handle is
also recorded in the port-handle registry, which is what registers the
well-known ports under their fixed names. -/
def Kernel.makePort (s : KernelState) (name : String) : Nat × KernelState :=
  let r := Kernel.makeObject s.objects KernelObjectType.Port
  let objs := setObjectData r.2 r.1 (some (ObjectData.portData name))
  (r.1,
    { s with
      objects := objs
      handleCounter := objs.length
      portHandles := s.portHandles ++ [r.1] })

/-- Translation of `Kernel::reset` from kernel.cpp: zero the counters, kill
every thread slot (status Dead, wait list cleared, termination-waiter counter
zeroed), run `deleteObjectData` over the whole object table (a panic there
aborts emulation), clear the object table and the registries, then rebuild the
baseline: a Dummy object at handle 0, the main Process with id 1 as current
process, the main thread (priority 0x30, status Running, current thread index
0), the idle thread, and the two well-known ports "srv:" and "err:f".
`serviceManager.reset()` acts only on the service collaborators and does not
touch the kernel state modelled here. -/
def Kernel.reset (s : KernelState) : Except String KernelState :=
  match Kernel.cleanupObjects s.objects with
  | Except.error e => Except.error e
  | Except.ok _ =>
    let deadThreads := s.threads.map (fun t =>
      { t with
        status := ThreadStatus.Dead
        waitList := []
        threadsWaitingForTermination := 0 })
    let s1 : KernelState :=
      { s with
        handleCounter := 0
        arbiterCount := 0
        threadCount := 0
        aliveThreadCount := 0
        threads := deadThreads
        objects := []
        portHandles := []
        threadIndices := [] }
    let rDummy := Kernel.makeObject s1.objects KernelObjectType.Dummy
    let s2 := { s1 with objects := rDummy.2, handleCounter := rDummy.2.length }
    let rProc := Kernel.makeProcess s2 1
    let s3 := { rProc.2 with currentProcess := rProc.1 }
    let rMain := Kernel.makeThread s3 0x30 ThreadStatus.Running
    let s4 := { rMain.2 with mainThread := rMain.1, currentThreadIndex := 0 }
    let s5 := Kernel.setupIdleThread s4
    let rSrv := Kernel.makePort s5 "srv:"
    let s6 := { rSrv.2 with srvHandle := rSrv.1 }
    let rErr := Kernel.makePort s6 "err:f"
    Except.ok { rErr.2 with errorPortHandle := rErr.1 }

/-- Outcome of one step of the SVC dispatcher: either the named handler is
invoked, or emulation halts via `Helpers::panic("Unimplemented svc: %X @ %08X",
svc, regs[15])`, carrying the syscall number and the guest program counter and
producing no guest-visible result. -/
inductive SVCOutcome
  | handler (name : String)
  | panicked (svc : Nat) (pc : Nat)
deriving DecidableEq, Repr

/-- The SVC dispatch table of `Kernel::serviceSVC` as an association list from
syscall immediate to handler name. -/
def svcTable : List (Nat × String) :=
  [(0x01, "controlMemory"), (0x02, "queryMemory"), (0x08, "createThread"),
   (0x09, "exitThread"), (0x0A, "svcSleepThread"), (0x0B, "getThreadPriority"),
   (0x0C, "setThreadPriority"), (0x13, "svcCreateMutex"), (0x14, "svcReleaseMutex"),
   (0x15, "svcCreateSemaphore"), (0x16, "svcReleaseSemaphore"),
   (0x17, "svcCreateEvent"), (0x18, "svcSignalEvent"), (0x19, "svcClearEvent"),
   (0x1E, "createMemoryBlock"), (0x1F, "mapMemoryBlock"),
   (0x21, "createAddressArbiter"), (0x22, "arbitrateAddress"),
   (0x23, "svcCloseHandle"), (0x24, "waitSynchronization1"),
   (0x25, "waitSynchronizationN"), (0x27, "duplicateHandle"),
   (0x28, "getSystemTick"), (0x2B, "getProcessInfo"), (0x2D, "connectToPort"),
   (0x32, "sendSyncRequest"), (0x35, "getProcessID"), (0x37, "getThreadID"),
   (0x38, "getResourceLimit"), (0x39, "getResourceLimitLimitValues"),
   (0x3A, "getResourceLimitCurrentValues"), (0x3D, "outputDebugString")]

/-- Translation of the switch in `Kernel::serviceSVC` from kernel.cpp: each
listed immediate invokes exactly its handler; the default case panics with the
syscall number and the guest program counter `regs[15]`. -/
def Kernel.serviceSVC (svc : Nat) (regs : Regs) : SVCOutcome :=
  match svc with
  | 0x01 => SVCOutcome.handler "controlMemory"
  | 0x02 => SVCOutcome.handler "queryMemory"
  | 0x08 => SVCOutcome.handler "createThread"
  | 0x09 => SVCOutcome.handler "exitThread"
  | 0x0A => SVCOutcome.handler "svcSleepThread"
  | 0x0B => SVCOutcome.handler "getThreadPriority"
  | 0x0C => SVCOutcome.handler "setThreadPriority"
  | 0x13 => SVCOutcome.handler "svcCreateMutex"
  | 0x14 => SVCOutcome.handler "svcReleaseMutex"
  | 0x15 => SVCOutcome.handler "svcCreateSemaphore"
  | 0x16 => SVCOutcome.handler "svcReleaseSemaphore"
  | 0x17 => SVCOutcome.handler "svcCreateEvent"
  | 0x18 => SVCOutcome.handler "svcSignalEvent"
  | 0x19 => SVCOutcome.handler "svcClearEvent"
  | 0x1E => SVCOutcome.handler "createMemoryBlock"
  | 0x1F => SVCOutcome.handler "mapMemoryBlock"
  | 0x21 => SVCOutcome.handler "createAddressArbiter"
  | 0x22 => SVCOutcome.handler "arbitrateAddress"
  | 0x23 => SVCOutcome.handler "svcCloseHandle"
  | 0x24 => SVCOutcome.handler "waitSynchronization1"
  | 0x25 => SVCOutcome.handler "waitSynchronizationN"
  | 0x27 => SVCOutcome.handler "duplicateHandle"
  | 0x28 => SVCOutcome.handler "getSystemTick"
  | 0x2B => SVCOutcome.handler "getProcessInfo"
  | 0x2D => SVCOutcome.handler "connectToPort"
  | 0x32 => SVCOutcome.handler "sendSyncRequest"
  | 0x35 => SVCOutcome.handler "getProcessID"
  | 0x37 => SVCOutcome.handler "getThreadID"
  | 0x38 => SVCOutcome.handler "getResourceLimit"
  | 0x39 => SVCOutcome.handler "getResourceLimitLimitValues"
  | 0x3A => SVCOutcome.handler "getResourceLimitCurrentValues"
  | 0x3D => SVCOutcome.handler "outputDebugString"
  | _ => SVCOutcome.panicked svc (regs 15)

/-- Translation of `Kernel::svcCloseHandle` from kernel.cpp: the handler is a
stub that logs "(Unimplemented)" and writes `Result::Success` into `regs[0]`;
it neither consults the object table nor removes anything from it. -/
def Kernel.svcCloseHandle (s : KernelState) (regs : Regs) : KernelState × Regs :=
  (s, updReg regs 0 Result.Success)

/-- Translation of `Kernel::duplicateHandle` from kernel.cpp: with the
current-thread sentinel in `regs[1]` it writes `Result::Success` to `regs[0]`,
makes a fresh Thread object whose data points at the current thread's pool slot
(no heap allocation), and writes the fresh handle to `regs[1]`; any other
argument panics ("DuplicateHandle: unimplemented handle type"). -/
def Kernel.duplicateHandle (s : KernelState) (regs : Regs) :
    Except String (KernelState × Regs) :=
  let original := regs 1
  if original = KernelHandles.CurrentThread then
    let regs1 := updReg regs 0 Result.Success
    let r := Kernel.makeObject s.objects KernelObjectType.Thread
    let objs := setObjectData r.2 r.1 (some (ObjectData.threadRef s.currentThreadIndex))
    Except.ok
      ({ s with objects := objs, handleCounter := objs.length }, updReg regs1 1 r.1)
  else
    Except.error "DuplicateHandle: unimplemented handle type"

/-- Translation of `Kernel::getProcessFromPID` from kernel.cpp: the
current-process sentinel resolves to the active process; any other handle is
looked up with the Process type tag. -/
def Kernel.getProcessFromPID (s : KernelState) (handle : Nat) : Option KernelObject :=
  if handle = KernelHandles.CurrentProcess then
    Kernel.getObject s.objects s.currentProcess KernelObjectType.Process
  else
    Kernel.getObject s.objects handle KernelObjectType.Process

/-- Translation of `Kernel::getProcessName` from kernel.cpp: "current" for the
current-process sentinel, `Helpers::panic("Attempted to name non-current
process")` for every other value. -/
def Kernel.getProcessName (pid : Nat) : Except String String :=
  if pid = KernelHandles.CurrentProcess then Except.ok "current"
  else Except.error "Attempted to name non-current process"

/-- Reads the process id out of a Process object's payload, modelling
`process->getData<Process>()->id` (the payload is always `processData` for
objects built by `makeProcess`). -/
def objDataProcessId : Option ObjectData → Nat
  | some (ObjectData.processData id) => id
  | _ => 0

/-- Translation of `Kernel::getProcessID` from kernel.cpp. The handle is taken
from `regs[1]` and resolved via `getProcessFromPID`; the log statement then
evaluates `getProcessName(pid)` as an argument, which panics for every
non-sentinel pid before the result is ever written; after that, a failed lookup
writes InvalidHandle into `regs[0]`, and a successful one writes Success into
`regs[0]` and the process id into `regs[1]`. -/
def Kernel.getProcessID (s : KernelState) (regs : Regs) : Except String Regs :=
  let pid := regs 1
  let process := Kernel.getProcessFromPID s pid
  match Kernel.getProcessName pid with
  | Except.error e => Except.error e
  | Except.ok _ =>
    match process with
    | none => Except.ok (updReg regs 0 Result.InvalidHandle)
    | some o =>
      Except.ok (updReg (updReg regs 0 Result.Success) 1 (objDataProcessId o.data))

/-- Modelled from the spec: `makeEvent(resetType)`, the Event factory this core
exposes to service collaborators (its body is not under src/): a fresh Event
object with a heap-owned payload carrying the reset type. -/
def Kernel.makeEvent (objects : List KernelObject) (rt : ResetType) :
    Nat × List KernelObject :=
  let r := Kernel.makeObject objects KernelObjectType.Event
  (r.1, setObjectData r.2 r.1 (some (ObjectData.eventData rt)))

/-- Modelled from the spec: `IPC::responseHeader` (ipc.hpp is not under src/).
Word 0 of the command buffer encodes a command identifier plus the counts of
normal and handle-translate parameters. -/
def IPC.responseHeader (commandID normalParams translateParams : Nat) : Nat :=
  (commandID * 2 ^ 16 + normalParams * 2 ^ 6 + translateParams) % u32Mod

/-- Old-3DS NFC adapter status values used by nfc.cpp. -/
inductive Old3DSAdapterStatus
  | NotInitialized
  | InitializationComplete
deriving DecidableEq, Repr

/-- The NFC service state: the two lazily created event handles and the adapter
status. -/
structure NFCState where
  tagInRangeEvent : Option Nat
  tagOutOfRangeEvent : Option Nat
  adapterStatus : Old3DSAdapterStatus
deriving DecidableEq, Repr

/-- Translation of `NFCService::reset` from nfc.cpp: both event slots are
cleared and the adapter status returns to NotInitialized. -/
def NFCService.reset (s : NFCState) : NFCState :=
  { s with
    tagInRangeEvent := none
    tagOutOfRangeEvent := none
    adapterStatus := Old3DSAdapterStatus.NotInitialized }

/-- Result of an NFC event-getter command: the service state, the kernel object
table, and guest memory after the handler ran. -/
structure NFCResult where
  nfc : NFCState
  objects : List KernelObject
  mem : Mem

/-- Translation of `NFCService::getTagInRangeEvent` from nfc.cpp: creates the
OneShot event on first use, then writes the response header at the message
pointer, `Result::Success` at offset 4 and the event handle at offset 12. -/
def NFCService.getTagInRangeEvent (nfc : NFCState) (objects : List KernelObject)
    (mem : Mem) (mp : Nat) : NFCResult :=
  let r : NFCState × List KernelObject × Nat :=
    match nfc.tagInRangeEvent with
    | some h => (nfc, objects, h)
    | none =>
      let e := Kernel.makeEvent objects ResetType.OneShot
      ({ nfc with tagInRangeEvent := some e.1 }, e.2, e.1)
  let m1 := write32 mem mp (IPC.responseHeader 0x0B 1 2)
  let m2 := write32 m1 (mp + 4) Result.Success
  let m3 := write32 m2 (mp + 12) r.2.2
  ⟨r.1, r.2.1, m3⟩

/-- Translation of `NFCService::getTagOutOfRangeEvent` from nfc.cpp: same shape
as `getTagInRangeEvent` with its own event slot and command id 0x0C. -/
def NFCService.getTagOutOfRangeEvent (nfc : NFCState) (objects : List KernelObject)
    (mem : Mem) (mp : Nat) : NFCResult :=
  let r : NFCState × List KernelObject × Nat :=
    match nfc.tagOutOfRangeEvent with
    | some h => (nfc, objects, h)
    | none =>
      let e := Kernel.makeEvent objects ResetType.OneShot
      ({ nfc with tagOutOfRangeEvent := some e.1 }, e.2, e.1)
  let m1 := write32 mem mp (IPC.responseHeader 0x0C 1 2)
  let m2 := write32 m1 (mp + 4) Result.Success
  let m3 := write32 m2 (mp + 12) r.2.2
  ⟨r.1, r.2.1, m3⟩

/-- The FS service state relevant to the claims: the stored priority. -/
structure FSState where
  priority : Nat
deriving DecidableEq, Repr

/-- Translation of `FSService::reset` from fs.cpp: the priority returns to 0. -/
def FSService.reset (s : FSState) : FSState := { s with priority := 0 }

/-- Translation of `FSService::getPriority` from fs.cpp: writes
`Result::Success` at offset 4 of the response buffer and the stored priority at
offset 8. -/
def FSService.getPriority (s : FSState) (mem : Mem) (mp : Nat) : FSState × Mem :=
  (s, write32 (write32 mem (mp + 4) FSResult.Success) (mp + 8) s.priority)

/-- Translation of `FSService::setPriority` from fs.cpp: reads the value at
offset 4, writes `Result::Success` at offset 4 and stores the value as the new
priority. -/
def FSService.setPriority (s : FSState) (mem : Mem) (mp : Nat) : FSState × Mem :=
  let value := read32 mem (mp + 4)
  ({ s with priority := value }, write32 mem (mp + 4) FSResult.Success)

/-- Translation of `FSService::openFileHandle` from fs.cpp, with the archive
collaborator's `openFile` outcome abstracted into the Boolean `opened` (archive
internals are out of scope per the spec): on success a fresh File object with a
heap-owned FileSession payload, otherwise nothing. -/
def FSService.openFileHandle (objects : List KernelObject) (opened : Bool) :
    Option (Nat × List KernelObject) :=
  if opened then
    let r := Kernel.makeObject objects KernelObjectType.File
    some (r.1, setObjectData r.2 r.1 (some ObjectData.fileSession))
  else none

/-- Translation of `FSService::openDirectoryHandle` from fs.cpp, with the
archive collaborator's `openDirectory` outcome abstracted into `opened`. -/
def FSService.openDirectoryHandle (objects : List KernelObject) (opened : Bool) :
    Option (Nat × List KernelObject) :=
  if opened then
    let r := Kernel.makeObject objects KernelObjectType.Directory
    some (r.1, setObjectData r.2 r.1 (some ObjectData.directorySession))
  else none

/-- Translation of `FSService::openArchiveHandle` from fs.cpp: an unknown
archive id panics inside `getArchiveFromID`; otherwise the collaborator's
`openArchive` outcome (abstracted into `opened`) decides between a fresh
Archive object and nothing. -/
def FSService.openArchiveHandle (objects : List KernelObject)
    (idKnown opened : Bool) : Except String (Option (Nat × List KernelObject)) :=
  if idKnown then
    if opened then
      let r := Kernel.makeObject objects KernelObjectType.Archive
      Except.ok (some (r.1, setObjectData r.2 r.1 (some ObjectData.archiveSession)))
    else Except.ok none
  else Except.error "Unknown archive. ID: %d"

/-- Translation of `FSService::openFile` from fs.cpp: the archive handle is the
low word of the u64 read at offset 8. An invalid archive handle writes
`Result::Failure` at offset 4; a failed file open writes `Result::FileNotFound`
at offset 4; success writes `Result::Success` at offset 4, the move-handle
descriptor 0x10 at offset 8 and the fresh handle at offset 12. -/
def FSService.openFile (objects : List KernelObject) (opened : Bool) (mem : Mem)
    (mp : Nat) : Except String (Mem × List KernelObject) :=
  let archiveHandle := read32 mem (mp + 8)
  match Kernel.getObject objects archiveHandle KernelObjectType.Archive with
  | none => Except.ok (write32 mem (mp + 4) FSResult.Failure, objects)
  | some _ =>
    match FSService.openFileHandle objects opened with
    | none => Except.ok (write32 mem (mp + 4) FSResult.FileNotFound, objects)
    | some r =>
      Except.ok
        (write32 (write32 (write32 mem (mp + 4) FSResult.Success) (mp + 8) 0x10)
          (mp + 12) r.1, r.2)

/-- Translation of `FSService::openDirectory` from fs.cpp: the archive handle
is the low word of the u64 read at offset 4. An invalid archive handle writes
`Result::Failure` at offset 4; a successful open writes `Result::Success` at
offset 4 and the fresh handle at offset 12; a failed open panics
(`Helpers::panic("FS::OpenDirectory failed")`). -/
def FSService.openDirectory (objects : List KernelObject) (opened : Bool)
    (mem : Mem) (mp : Nat) : Except String (Mem × List KernelObject) :=
  let archiveHandle := read32 mem (mp + 4)
  match Kernel.getObject objects archiveHandle KernelObjectType.Archive with
  | none => Except.ok (write32 mem (mp + 4) FSResult.Failure, objects)
  | some _ =>
    match FSService.openDirectoryHandle objects opened with
    | some r =>
      Except.ok (write32 (write32 mem (mp + 4) FSResult.Success) (mp + 12) r.1, r.2)
    | none => Except.error "FS::OpenDirectory failed"

/-- Translation of `FSService::openFileDirectly` from fs.cpp: an unknown
archive id, a failed archive open and a failed file open are all panics; only
full success writes into the response buffer (`Result::Success` at offset 4 and
the fresh handle at offset 12). -/
def FSService.openFileDirectly (objects : List KernelObject)
    (idKnown archiveOpened fileOpened : Bool) (mem : Mem) (mp : Nat) :
    Except String (Mem × List KernelObject) :=
  if idKnown then
    if archiveOpened then
      match FSService.openFileHandle objects fileOpened with
      | none => Except.error "OpenFileDirectly: Failed to open file with given path"
      | some r =>
        Except.ok
          (write32 (write32 mem (mp + 4) FSResult.Success) (mp + 12) r.1, r.2)
    else Except.error "OpenFileDirectly: Failed to open archive with given path"
  else Except.error "OpenFileDirectly: Tried to open unknown archive %d."

/-- Translation of `FSService::openArchive` from fs.cpp: a successful archive
open writes `Result::Success` at offset 4 and the 64-bit handle at offsets 8
and 12; a failed one writes `Result::Failure` at offset 4 (an unknown archive
id still panics inside `openArchiveHandle`). -/
def FSService.openArchive (objects : List KernelObject) (idKnown opened : Bool)
    (mem : Mem) (mp : Nat) : Except String (Mem × List KernelObject) :=
  match FSService.openArchiveHandle objects idKnown opened with
  | Except.error e => Except.error e
  | Except.ok (some r) =>
    Except.ok
      (write32 (write32 (write32 mem (mp + 4) FSResult.Success) (mp + 8)
        (r.1 % u32Mod)) (mp + 12) (r.1 / u32Mod), r.2)
  | Except.ok none => Except.ok (write32 mem (mp + 4) FSResult.Failure, objects)

theorem read32_write32_same (m : Mem) (a v : Nat) :
    read32 (write32 m a v) a = v % u32Mod := by
  simp [read32, write32, Nat.mod_mod_of_dvd _ dvd_rfl]

theorem read32_write32_ne (m : Mem) (a b v : Nat) (h : b ≠ a) :
    read32 (write32 m a v) b = read32 m b := by
  simp [read32, write32, h]

instance {e a : Type} [DecidableEq e] [DecidableEq a] : DecidableEq (Except e a) :=
  fun x y =>
    match x, y with
    | Except.ok v, Except.ok w =>
      if h : v = w then Decidable.isTrue (by rw [h])
      else Decidable.isFalse (fun hh => h (Except.ok.inj hh))
    | Except.error v, Except.error w =>
      if h : v = w then Decidable.isTrue (by rw [h])
      else Decidable.isFalse (fun hh => h (Except.error.inj hh))
    | Except.ok _, Except.error _ => Decidable.isFalse (fun hh => Except.noConfusion hh)
    | Except.error _, Except.ok _ => Decidable.isFalse (fun hh => Except.noConfusion hh)

/-- The kernel state right after construction, at a concrete pool size of 8
slots and concrete TLS constants. -/
def baseKernelState : KernelState := Kernel.initialState 8 0xFF400000 0x1000

/-- A store holding the single object created by `makeObject(Event)` (handle 0). -/
def c1Store : List KernelObject := (Kernel.makeObject [] KernelObjectType.Event).2

/-- A kernel state whose object table is `c1Store`. -/
def c1State : KernelState := { baseKernelState with objects := c1Store }

/-- C1: for every handle returned by makeObject, getObject succeeds with the
correct type and fails with a wrong type; but `Kernel::svcCloseHandle` is a
stub that writes Success and touches nothing, so after CloseHandle the lookup
still succeeds, the slot is not removed and no ownership rule runs, and
closing an unknown handle also reports Success rather than an error code. -/
theorem claim_C1_closeHandle_stub :
    (Kernel.makeObject [] KernelObjectType.Event).1 = 0 ∧
    (Kernel.getObject c1Store 0 KernelObjectType.Event).isSome = true ∧
    Kernel.getObject c1Store 0 KernelObjectType.Mutex = none ∧
    (Kernel.svcCloseHandle c1State (fun _ => 0)).1 = c1State ∧
    (Kernel.svcCloseHandle c1State (fun _ => 0)).2 0 = Result.Success ∧
    (Kernel.getObject ((Kernel.svcCloseHandle c1State (fun _ => 0)).1).objects 0
      KernelObjectType.Event).isSome = true ∧
    (Kernel.svcCloseHandle c1State (fun _ => 99)).2 0 = Result.Success := by
  refine ⟨rfl, rfl, rfl, rfl, ?_, rfl, ?_⟩ <;> rfl

/-- The baseline state built by the first `reset()` after construction. -/
def kernelAfterReset : KernelState :=
  (Kernel.reset baseKernelState).toOption.getD baseKernelState

/-- C2: the first `reset()` yields the baseline (handle 0 Dummy, exactly one
Process with id 1 as current process, exactly one Running thread, the two
well-known ports registered), but `reset()` from that very state aborts:
`deleteObjectData` panics on the ResourceLimit object the previous reset
created, so reset does not complete from every prior state. -/
theorem claim_C2_reset_baseline_then_abort :
    Kernel.reset baseKernelState = Except.ok kernelAfterReset ∧
    kernelAfterReset.objects.getD 0 { handle := 0, type := KernelObjectType.Mutex } =
      { handle := 0, type := KernelObjectType.Dummy, data := none } ∧
    kernelAfterReset.objects.countP
      (fun o => o.type == KernelObjectType.Process) = 1 ∧
    kernelAfterReset.currentProcess = 1 ∧
    Kernel.getObject kernelAfterReset.objects kernelAfterReset.currentProcess
      KernelObjectType.Process =
      some { handle := 1, type := KernelObjectType.Process,
             data := some (ObjectData.processData 1) } ∧
    kernelAfterReset.threads.countP (fun t => t.status == ThreadStatus.Running) = 1 ∧
    (kernelAfterReset.threads.getD 0 {}).status = ThreadStatus.Running ∧
    kernelAfterReset.currentThreadIndex = 0 ∧
    Kernel.getObject kernelAfterReset.objects kernelAfterReset.mainThread
      KernelObjectType.Thread =
      some { handle := 3, type := KernelObjectType.Thread,
             data := some (ObjectData.threadRef 0) } ∧
    Kernel.getObject kernelAfterReset.objects kernelAfterReset.srvHandle
      KernelObjectType.Port =
      some { handle := 4, type := KernelObjectType.Port,
             data := some (ObjectData.portData "srv:") } ∧
    Kernel.getObject kernelAfterReset.objects kernelAfterReset.errorPortHandle
      KernelObjectType.Port =
      some { handle := 5, type := KernelObjectType.Port,
             data := some (ObjectData.portData "err:f") } ∧
    kernelAfterReset.srvHandle ∈ kernelAfterReset.portHandles ∧
    kernelAfterReset.errorPortHandle ∈ kernelAfterReset.portHandles ∧
    Kernel.reset kernelAfterReset = Except.error "not known to allocate heap data" := by
  decide

/-- The state after `makeProcess(1)` on a fresh kernel: Process at handle 0,
its ResourceLimit at handle 1. -/
def c3State : KernelState := (Kernel.makeProcess baseKernelState 1).2

/-- The ResourceLimit object created by `makeProcess`. -/
def c3ResourceLimitObject : KernelObject :=
  c3State.objects.getD 1 { handle := 0, type := KernelObjectType.Dummy }

/-- C3: every ResourceLimit object `makeProcess` creates has a non-null data
pointer (the interior reference into its parent Process), and
`deleteObjectData` on it is a panic, not a no-op, so the bulk cleanup run by
`reset` over a store containing it aborts emulation. -/
theorem claim_C3_resourceLimit_delete_fatal :
    c3ResourceLimitObject.type = KernelObjectType.ResourceLimit ∧
    c3ResourceLimitObject.data = some (ObjectData.resourceLimitRef 0) ∧
    Kernel.deleteObjectData c3ResourceLimitObject =
      DeleteAction.fatal "not known to allocate heap data" ∧
    Kernel.cleanupObjects c3State.objects =
      Except.error "not known to allocate heap data" := by
  decide

/-- C10: SetPriority stores the 32-bit value read at offset 4 and reports
Success for every value; GetPriority then reports Success and writes exactly
the stored value at offset 8; FS reset restores priority 0. -/
theorem claim_C10_priority_roundtrip :
    (∀ fs : FSState, (FSService.reset fs).priority = 0) ∧
    (∀ (fs : FSState) (mem : Mem) (mp : Nat),
      (FSService.setPriority fs mem mp).1.priority = read32 mem (mp + 4) ∧
      read32 (FSService.setPriority fs mem mp).2 (mp + 4) = FSResult.Success) ∧
    (∀ (fs : FSState) (mem : Mem) (mp : Nat),
      read32 (FSService.getPriority fs mem mp).2 (mp + 4) = FSResult.Success ∧
      read32 (FSService.getPriority fs mem mp).2 (mp + 8) = fs.priority % u32Mod) ∧
    (∀ (fs : FSState) (mem mem2 : Mem) (mp mp2 : Nat),
      read32 (FSService.getPriority (FSService.setPriority fs mem mp).1 mem2 mp2).2
        (mp2 + 8) = read32 mem (mp + 4)) := by
  refine ⟨fun fs => rfl, fun fs mem mp => ⟨rfl, ?_⟩, fun fs mem mp => ⟨?_, ?_⟩,
    fun fs mem mem2 mp mp2 => ?_⟩
  · rw [FSService.setPriority, read32_write32_same]; decide
  · show read32 (write32 (write32 mem (mp + 4) FSResult.Success) (mp + 8)
      fs.priority) (mp + 4) = FSResult.Success
    rw [read32_write32_ne _ _ _ _ (by omega), read32_write32_same]; decide
  · show read32 (write32 (write32 mem (mp + 4) FSResult.Success) (mp + 8)
      fs.priority) (mp + 8) = fs.priority % u32Mod
    rw [read32_write32_same]
  · show read32 (write32 (write32 mem2 (mp2 + 4) FSResult.Success) (mp2 + 8)
      (read32 mem (mp + 4))) (mp2 + 8) = read32 mem (mp + 4)
    rw [read32_write32_same]
    exact Nat.mod_mod_of_dvd _ dvd_rfl

/-- C4: every immediate present in the dispatch table invokes exactly its
mapped handler, and every absent immediate panics with diagnostic context
carrying the syscall number and the guest program counter `regs[15]`,
producing no guest-visible result. -/
theorem claim_C4_svc_dispatch :
    (∀ p ∈ svcTable, ∀ regs : Regs,
      Kernel.serviceSVC p.1 regs = SVCOutcome.handler p.2) ∧
    (∀ (svc : Nat) (regs : Regs), svcTable.lookup svc = none →
      Kernel.serviceSVC svc regs = SVCOutcome.panicked svc (regs 15)) := by
  constructor
  · intro p hp regs
    fin_cases hp <;> rfl
  · intro svc regs h
    unfold Kernel.serviceSVC
    split <;> first | rfl | (exact absurd h (by decide))

/-- Witness for C4 at the concrete immediates 0x01 (present) and 0x03
(absent). -/
theorem claim_C4_witness :
    Kernel.serviceSVC 0x01 (fun _ => 0x1000) = SVCOutcome.handler "controlMemory" ∧
    Kernel.serviceSVC 0x03 (fun _ => 0x1000) = SVCOutcome.panicked 0x03 0x1000 :=
  ⟨claim_C4_svc_dispatch.1 (0x01, "controlMemory") (by decide) (fun _ => 0x1000),
   claim_C4_svc_dispatch.2 0x03 (fun _ => 0x1000) (by decide)⟩

/-- C8: every thread-pool slot `i` carries index `i` and TLS base
`TLSBase + i * TLSSize` from construction, and `getTLSPointer` computes exactly
the TLS base of the slot whose index is the current thread index. -/
theorem claim_C8_thread_slot_identity (n b ts i : Nat) (hi : i < n) :
    ((Kernel.initThreads n b ts).getD i {}).index = i ∧
    ((Kernel.initThreads n b ts).getD i {}).tlsBase = (b + i * ts) % u32Mod ∧
    Kernel.getTLSPointer b ts i = ((Kernel.initThreads n b ts).getD i {}).tlsBase := by
  have hg : (Kernel.initThreads n b ts).getD i {} =
      { index := i
        tlsBase := (b + i * ts) % u32Mod
        status := ThreadStatus.Dead
        priority := 0
        waitList := []
        waitAll := false
        outPointer := 0
        threadsWaitingForTermination := 0 } := by
    unfold Kernel.initThreads
    rw [List.getD_eq_getElem?_getD, List.getElem?_map, List.getElem?_range hi]
    rfl
  rw [hg]
  exact ⟨rfl, rfl, rfl⟩

/-- Witness for C8 at pool size 8, slot 3, and concrete TLS constants. -/
theorem claim_C8_witness :
    ((Kernel.initThreads 8 0xFF400000 0x1000).getD 3 {}).index = 3 ∧
    ((Kernel.initThreads 8 0xFF400000 0x1000).getD 3 {}).tlsBase =
      (0xFF400000 + 3 * 0x1000) % u32Mod ∧
    Kernel.getTLSPointer 0xFF400000 0x1000 3 =
      ((Kernel.initThreads 8 0xFF400000 0x1000).getD 3 {}).tlsBase :=
  claim_C8_thread_slot_identity 8 0xFF400000 0x1000 3 (by decide)

theorem setObjectData_append_fresh (objects : List KernelObject)
    (t : KernelObjectType) (d : Option ObjectData)
    (hfresh : ∀ o ∈ objects, o.handle ≠ objects.length) :
    setObjectData (objects ++ [{ handle := objects.length, type := t }])
      objects.length d =
      objects ++ [{ handle := objects.length, type := t, data := d }] := by
  unfold setObjectData
  rw [List.map_append]
  congr 1
  · conv_rhs => rw [← List.map_id objects]
    apply List.map_congr_left
    intro o ho
    simp [hfresh o ho]
  · simp

/-- C7: DuplicateHandle with the current-thread sentinel in `regs[1]` writes
Success to `regs[0]`, appends a fresh Thread-tagged object whose payload is the
reference to the current thread's pool slot (a payload `deleteObjectData`
treats as heap-free), and writes the fresh handle to `regs[1]`; any other
argument is host-fatal. -/
theorem claim_C7_duplicateHandle (s : KernelState) (regs : Regs)
    (hfresh : ∀ o ∈ s.objects, o.handle ≠ s.objects.length) :
    (regs 1 = KernelHandles.CurrentThread →
      match Kernel.duplicateHandle s regs with
      | Except.ok r =>
        r.2 0 = Result.Success ∧
        r.2 1 = s.objects.length % u32Mod ∧
        r.1.objects = s.objects ++
          [{ handle := s.objects.length, type := KernelObjectType.Thread,
             data := some (ObjectData.threadRef s.currentThreadIndex) }] ∧
        Kernel.deleteObjectData
          { handle := s.objects.length, type := KernelObjectType.Thread,
            data := some (ObjectData.threadRef s.currentThreadIndex) } =
          DeleteAction.noop
      | Except.error _ => False) ∧
    (regs 1 ≠ KernelHandles.CurrentThread →
      Kernel.duplicateHandle s regs =
        Except.error "DuplicateHandle: unimplemented handle type") := by
  constructor
  · intro h1
    unfold Kernel.duplicateHandle
    rw [if_pos h1]
    refine ⟨?_, ?_, ?_, rfl⟩
    · show updReg (updReg regs 0 Result.Success) 1
        (Kernel.makeObject s.objects KernelObjectType.Thread).1 0 = Result.Success
      simp [updReg, Result.Success]
    · show updReg (updReg regs 0 Result.Success) 1
        (Kernel.makeObject s.objects KernelObjectType.Thread).1 1 =
        s.objects.length % u32Mod
      simp [updReg, Kernel.makeObject]
    · show setObjectData (Kernel.makeObject s.objects KernelObjectType.Thread).2
        (Kernel.makeObject s.objects KernelObjectType.Thread).1
        (some (ObjectData.threadRef s.currentThreadIndex)) = _
      rw [Kernel.makeObject]
      exact setObjectData_append_fresh s.objects KernelObjectType.Thread _ hfresh
  · intro h1
    unfold Kernel.duplicateHandle
    rw [if_neg h1]

/-- Witness for C7 on the freshly constructed kernel state, once with the
current-thread sentinel and once with the plain handle 5. -/
theorem claim_C7_witness :
    (match Kernel.duplicateHandle baseKernelState
        (fun _ => KernelHandles.CurrentThread) with
      | Except.ok r =>
        r.2 0 = Result.Success ∧
        r.2 1 = baseKernelState.objects.length % u32Mod ∧
        r.1.objects = baseKernelState.objects ++
          [{ handle := baseKernelState.objects.length, type := KernelObjectType.Thread,
             data := some (ObjectData.threadRef baseKernelState.currentThreadIndex) }] ∧
        Kernel.deleteObjectData
          { handle := baseKernelState.objects.length, type := KernelObjectType.Thread,
            data := some (ObjectData.threadRef baseKernelState.currentThreadIndex) } =
          DeleteAction.noop
      | Except.error _ => False) ∧
    Kernel.duplicateHandle baseKernelState (fun _ => 5) =
      Except.error "DuplicateHandle: unimplemented handle type" :=
  ⟨(claim_C7_duplicateHandle baseKernelState (fun _ => KernelHandles.CurrentThread)
      (by simp [baseKernelState, Kernel.initialState])).1 rfl,
   (claim_C7_duplicateHandle baseKernelState (fun _ => 5)
      (by simp [baseKernelState, Kernel.initialState])).2 (by decide)⟩

/-- Counterexample for C5 as stated: handle 0 in this state is a valid
Process-tagged object, yet GetProcessID with it is host-fatal — the log
statement evaluates `getProcessName(pid)`, which panics for every non-sentinel
pid — so neither Success nor InvalidHandle is ever written. -/
theorem claim_C5_counterexample :
    (Kernel.getProcessFromPID c3State 0).isSome = true ∧
    Kernel.getProcessID c3State (fun _ => 0) =
      Except.error "Attempted to name non-current process" := by
  constructor
  · rfl
  · rfl

/-- C5 as amended: `getProcessFromPID` resolves the current-process sentinel to
the active process and any other handle only to a Process-tagged object; with
the sentinel, GetProcessID writes InvalidHandle on a failed lookup and Success
plus the process id on a successful one; with any other handle value,
GetProcessID is host-fatal via `getProcessName` before any result is written. -/
theorem claim_C5_getProcessID (s : KernelState) (regs : Regs) :
    Kernel.getProcessFromPID s KernelHandles.CurrentProcess =
      Kernel.getObject s.objects s.currentProcess KernelObjectType.Process ∧
    (∀ h : Nat, h ≠ KernelHandles.CurrentProcess →
      Kernel.getProcessFromPID s h =
        Kernel.getObject s.objects h KernelObjectType.Process) ∧
    (∀ (h : Nat) (o : KernelObject),
      Kernel.getObject s.objects h KernelObjectType.Process = some o →
      o.type = KernelObjectType.Process) ∧
    (regs 1 = KernelHandles.CurrentProcess →
      Kernel.getProcessFromPID s (regs 1) = none →
      Kernel.getProcessID s regs = Except.ok (updReg regs 0 Result.InvalidHandle)) ∧
    (∀ o : KernelObject, regs 1 = KernelHandles.CurrentProcess →
      Kernel.getProcessFromPID s (regs 1) = some o →
      Kernel.getProcessID s regs =
        Except.ok (updReg (updReg regs 0 Result.Success) 1 (objDataProcessId o.data))) ∧
    (regs 1 ≠ KernelHandles.CurrentProcess →
      Kernel.getProcessID s regs =
        Except.error "Attempted to name non-current process") := by
  refine ⟨?_, ?_, ?_, ?_, ?_, ?_⟩
  · simp [Kernel.getProcessFromPID]
  · intro h hne
    simp [Kernel.getProcessFromPID, hne]
  · intro h o ho
    unfold Kernel.getObject at ho
    rcases hfind : s.objects.find? (fun x => x.handle == h) with _ | x
    · rw [hfind] at ho
      exact Option.noConfusion ho
    · rw [hfind] at ho
      change (if x.type = KernelObjectType.Process then some x else none) = some o at ho
      by_cases hx : x.type = KernelObjectType.Process
      · rw [if_pos hx] at ho
        cases ho
        exact hx
      · rw [if_neg hx] at ho
        exact Option.noConfusion ho
  · intro h1 h2
    rw [h1] at h2
    simp [Kernel.getProcessID, Kernel.getProcessName, h1, h2]
  · intro o h1 h2
    rw [h1] at h2
    simp [Kernel.getProcessID, Kernel.getProcessName, h1, h2]
  · intro h1
    simp [Kernel.getProcessID, Kernel.getProcessName, h1]

/-- Witness for C5 on the state built by `makeProcess(1)` (current process
handle 0): with the sentinel in `regs[1]` GetProcessID writes Success and the
id 1; with the non-sentinel handle 7 it is host-fatal. -/
theorem claim_C5_witness :
    Kernel.getProcessID c3State (fun _ => KernelHandles.CurrentProcess) =
      Except.ok (updReg (updReg (fun _ => KernelHandles.CurrentProcess) 0
        Result.Success) 1 (objDataProcessId (some (ObjectData.processData 1)))) ∧
    Kernel.getProcessID c3State (fun _ => 7) =
      Except.error "Attempted to name non-current process" :=
  ⟨(claim_C5_getProcessID c3State (fun _ => KernelHandles.CurrentProcess)).2.2.2.2.1
      { handle := 0, type := KernelObjectType.Process,
        data := some (ObjectData.processData 1) } rfl rfl,
   (claim_C5_getProcessID c3State (fun _ => 7)).2.2.2.2.2 (by decide)⟩

/-- A store holding one valid Archive object at handle 0. -/
def c6Objects : List KernelObject :=
  [{ handle := 0, type := KernelObjectType.Archive,
     data := some ObjectData.archiveSession }]

/-- Counterexample for C6 as stated: with a valid archive handle, an
OpenDirectory request whose underlying directory open fails does not write a
failure result code — it panics. -/
theorem claim_C6_counterexample :
    (Kernel.getObject c6Objects (read32 (fun _ => 0) (0x1000 + 4))
      KernelObjectType.Archive).isSome = true ∧
    FSService.openDirectory c6Objects false (fun _ => 0) 0x1000 =
      Except.error "FS::OpenDirectory failed" := by
  constructor
  · rfl
  · rfl

/-- C6 as amended: OpenFile returns failures as result codes (Failure for an
invalid archive handle, FileNotFound for a failed file open) and OpenArchive
returns Failure for a failed archive open, but OpenDirectory with a failed
directory open and OpenFileDirectly with a failed archive open or a failed
file open are host-fatal panics rather than guest-visible errors. -/
theorem claim_C6_fs_open_failures (objects : List KernelObject) (mem : Mem)
    (mp : Nat) (opened : Bool) :
    (Kernel.getObject objects (read32 mem (mp + 8)) KernelObjectType.Archive = none →
      FSService.openFile objects opened mem mp =
        Except.ok (write32 mem (mp + 4) FSResult.Failure, objects)) ∧
    ((Kernel.getObject objects (read32 mem (mp + 8))
        KernelObjectType.Archive).isSome = true →
      FSService.openFile objects false mem mp =
        Except.ok (write32 mem (mp + 4) FSResult.FileNotFound, objects)) ∧
    FSService.openArchive objects true false mem mp =
      Except.ok (write32 mem (mp + 4) FSResult.Failure, objects) ∧
    ((Kernel.getObject objects (read32 mem (mp + 4))
        KernelObjectType.Archive).isSome = true →
      FSService.openDirectory objects false mem mp =
        Except.error "FS::OpenDirectory failed") ∧
    FSService.openFileDirectly objects true true false mem mp =
      Except.error "OpenFileDirectly: Failed to open file with given path" ∧
    FSService.openFileDirectly objects true false opened mem mp =
      Except.error "OpenFileDirectly: Failed to open archive with given path" := by
  refine ⟨?_, ?_, rfl, ?_, rfl, rfl⟩
  · intro h
    simp [FSService.openFile, h]
  · intro h
    obtain ⟨a, ha⟩ := Option.isSome_iff_exists.mp h
    simp [FSService.openFile, ha, FSService.openFileHandle]
  · intro h
    obtain ⟨a, ha⟩ := Option.isSome_iff_exists.mp h
    simp [FSService.openDirectory, ha, FSService.openDirectoryHandle]

/-- Witness for C6: a failed file open on a valid archive writes FileNotFound;
an invalid archive handle writes Failure; a failed archive open in OpenArchive
writes Failure; a failed archive open in OpenFileDirectly is fatal. -/
theorem claim_C6_witness :
    FSService.openFile c6Objects false (fun _ => 0) 0x1000 =
      Except.ok (write32 (fun _ => 0) (0x1000 + 4) FSResult.FileNotFound, c6Objects) ∧
    FSService.openFile [] true (fun _ => 0) 0x1000 =
      Except.ok (write32 (fun _ => 0) (0x1000 + 4) FSResult.Failure, []) ∧
    FSService.openArchive [] true false (fun _ => 0) 0 =
      Except.ok (write32 (fun _ => 0) (0 + 4) FSResult.Failure, []) ∧
    FSService.openFileDirectly [] true false true (fun _ => 0) 0 =
      Except.error "OpenFileDirectly: Failed to open archive with given path" :=
  ⟨(claim_C6_fs_open_failures c6Objects (fun _ => 0) 0x1000 false).2.1 rfl,
   (claim_C6_fs_open_failures [] (fun _ => 0) 0x1000 true).1 rfl,
   (claim_C6_fs_open_failures [] (fun _ => 0) 0 false).2.2.1,
   (claim_C6_fs_open_failures [] (fun _ => 0) 0 true).2.2.2.2.2⟩

/-- C9: GetTagInRangeEvent and GetTagOutOfRangeEvent are lazily creating and
idempotent. After an NFC reset both event slots are empty; the first call of
each command appends exactly one OneShot Event object and writes Success and
its fresh handle into the response; every later call of the same command
leaves the service state and the object table unchanged and writes Success and
the same handle again. -/
theorem claim_C9_nfc_events :
    (∀ nfc : NFCState, (NFCService.reset nfc).tagInRangeEvent = none ∧
      (NFCService.reset nfc).tagOutOfRangeEvent = none) ∧
    (∀ (nfc : NFCState) (objects : List KernelObject) (mem : Mem) (mp : Nat),
      nfc.tagInRangeEvent = none →
      (∀ o ∈ objects, o.handle ≠ objects.length) →
      (NFCService.getTagInRangeEvent nfc objects mem mp).nfc.tagInRangeEvent =
        some objects.length ∧
      (NFCService.getTagInRangeEvent nfc objects mem mp).objects =
        objects ++ [{ handle := objects.length, type := KernelObjectType.Event,
                      data := some (ObjectData.eventData ResetType.OneShot) }] ∧
      read32 (NFCService.getTagInRangeEvent nfc objects mem mp).mem (mp + 4) =
        Result.Success ∧
      read32 (NFCService.getTagInRangeEvent nfc objects mem mp).mem (mp + 12) =
        objects.length % u32Mod) ∧
    (∀ (nfc : NFCState) (objects : List KernelObject) (mem : Mem) (mp h : Nat),
      nfc.tagInRangeEvent = some h →
      (NFCService.getTagInRangeEvent nfc objects mem mp).nfc = nfc ∧
      (NFCService.getTagInRangeEvent nfc objects mem mp).objects = objects ∧
      read32 (NFCService.getTagInRangeEvent nfc objects mem mp).mem (mp + 4) =
        Result.Success ∧
      read32 (NFCService.getTagInRangeEvent nfc objects mem mp).mem (mp + 12) =
        h % u32Mod) ∧
    (∀ (nfc : NFCState) (objects : List KernelObject) (mem : Mem) (mp : Nat),
      nfc.tagOutOfRangeEvent = none →
      (∀ o ∈ objects, o.handle ≠ objects.length) →
      (NFCService.getTagOutOfRangeEvent nfc objects mem mp).nfc.tagOutOfRangeEvent =
        some objects.length ∧
      (NFCService.getTagOutOfRangeEvent nfc objects mem mp).objects =
        objects ++ [{ handle := objects.length, type := KernelObjectType.Event,
                      data := some (ObjectData.eventData ResetType.OneShot) }] ∧
      read32 (NFCService.getTagOutOfRangeEvent nfc objects mem mp).mem (mp + 4) =
        Result.Success ∧
      read32 (NFCService.getTagOutOfRangeEvent nfc objects mem mp).mem (mp + 12) =
        objects.length % u32Mod) ∧
    (∀ (nfc : NFCState) (objects : List KernelObject) (mem : Mem) (mp h : Nat),
      nfc.tagOutOfRangeEvent = some h →
      (NFCService.getTagOutOfRangeEvent nfc objects mem mp).nfc = nfc ∧
      (NFCService.getTagOutOfRangeEvent nfc objects mem mp).objects = objects ∧
      read32 (NFCService.getTagOutOfRangeEvent nfc objects mem mp).mem (mp + 4) =
        Result.Success ∧
      read32 (NFCService.getTagOutOfRangeEvent nfc objects mem mp).mem (mp + 12) =
        h % u32Mod) := by
  refine ⟨fun nfc => ⟨rfl, rfl⟩, ?_, ?_, ?_, ?_⟩
  · intro nfc objects mem mp h1 hfresh
    unfold NFCService.getTagInRangeEvent
    rw [h1]
    refine ⟨rfl, ?_, ?_, ?_⟩
    · exact setObjectData_append_fresh objects KernelObjectType.Event _ hfresh
    · rw [read32_write32_ne _ _ _ _ (by omega), read32_write32_same]
      decide
    · rw [read32_write32_same]
      rfl
  · intro nfc objects mem mp h h1
    unfold NFCService.getTagInRangeEvent
    rw [h1]
    refine ⟨rfl, rfl, ?_, ?_⟩
    · rw [read32_write32_ne _ _ _ _ (by omega), read32_write32_same]
      decide
    · rw [read32_write32_same]
  · intro nfc objects mem mp h1 hfresh
    unfold NFCService.getTagOutOfRangeEvent
    rw [h1]
    refine ⟨rfl, ?_, ?_, ?_⟩
    · exact setObjectData_append_fresh objects KernelObjectType.Event _ hfresh
    · rw [read32_write32_ne _ _ _ _ (by omega), read32_write32_same]
      decide
    · rw [read32_write32_same]
      rfl
  · intro nfc objects mem mp h h1
    unfold NFCService.getTagOutOfRangeEvent
    rw [h1]
    refine ⟨rfl, rfl, ?_, ?_⟩
    · rw [read32_write32_ne _ _ _ _ (by omega), read32_write32_same]
      decide
    · rw [read32_write32_same]

/-- Witness for C9: from the reset NFC state with an empty object table, the
first GetTagInRangeEvent call creates the OneShot event at handle 0 and writes
Success and 0; a later call with the slot already holding handle 0 changes
nothing and writes the same handle. -/
theorem claim_C9_witness :
    (NFCService.reset ⟨some 5, some 6, Old3DSAdapterStatus.InitializationComplete⟩).tagInRangeEvent = none ∧
    (NFCService.getTagInRangeEvent ⟨none, none, Old3DSAdapterStatus.NotInitialized⟩
      [] (fun _ => 0) 0x2000).nfc.tagInRangeEvent = some ([] : List KernelObject).length ∧
    (NFCService.getTagInRangeEvent ⟨none, none, Old3DSAdapterStatus.NotInitialized⟩
      [] (fun _ => 0) 0x2000).objects =
      [] ++ [{ handle := ([] : List KernelObject).length, type := KernelObjectType.Event,
               data := some (ObjectData.eventData ResetType.OneShot) }] ∧
    read32 (NFCService.getTagInRangeEvent ⟨none, none, Old3DSAdapterStatus.NotInitialized⟩
      [] (fun _ => 0) 0x2000).mem (0x2000 + 4) = Result.Success ∧
    (NFCService.getTagInRangeEvent
      ⟨some 0, none, Old3DSAdapterStatus.InitializationComplete⟩
      [{ handle := 0, type := KernelObjectType.Event,
         data := some (ObjectData.eventData ResetType.OneShot) }]
      (fun _ => 0) 0x2000).objects =
      [{ handle := 0, type := KernelObjectType.Event,
         data := some (ObjectData.eventData ResetType.OneShot) }] ∧
    read32 (NFCService.getTagInRangeEvent
      ⟨some 0, none, Old3DSAdapterStatus.InitializationComplete⟩
      [{ handle := 0, type := KernelObjectType.Event,
         data := some (ObjectData.eventData ResetType.OneShot) }]
      (fun _ => 0) 0x2000).mem (0x2000 + 12) = 0 % u32Mod :=
  ⟨(claim_C9_nfc_events.1 ⟨some 5, some 6, Old3DSAdapterStatus.InitializationComplete⟩).1,
   (claim_C9_nfc_events.2.1 ⟨none, none, Old3DSAdapterStatus.NotInitialized⟩
      [] (fun _ => 0) 0x2000 rfl (by simp)).1,
   (claim_C9_nfc_events.2.1 ⟨none, none, Old3DSAdapterStatus.NotInitialized⟩
      [] (fun _ => 0) 0x2000 rfl (by simp)).2.1,
   (claim_C9_nfc_events.2.1 ⟨none, none, Old3DSAdapterStatus.NotInitialized⟩
      [] (fun _ => 0) 0x2000 rfl (by simp)).2.2.1,
   (claim_C9_nfc_events.2.2.1 ⟨some 0, none, Old3DSAdapterStatus.InitializationComplete⟩
      [{ handle := 0, type := KernelObjectType.Event,
         data := some (ObjectData.eventData ResetType.OneShot) }]
      (fun _ => 0) 0x2000 0 rfl).2.1,
   (claim_C9_nfc_events.2.2.1 ⟨some 0, none, Old3DSAdapterStatus.InitializationComplete⟩
      [{ handle := 0, type := KernelObjectType.Event,
         data := some (ObjectData.eventData ResetType.OneShot) }]
      (fun _ => 0) 0x2000 0 rfl).2.2.2⟩
